import Mathlib

/-!
Shallow embedding of the asset-retrieval and local-cache subsystem of
`custom_components/immich/hub.py` (class `ImmichHub`), covering
`download_asset`, `load_cached_asset`, `cache_album_assets` and
`initialize_asset_cache`, together with theorems about the cache's
behaviour.

Modelling conventions:
* Byte strings (`bytes`) are lists of byte values (`List Nat`).
* The filesystem is restricted to the single cache directory: a flag for
  whether the directory exists and an association list from asset id
  (the file name inside the directory) to file contents.
* Nondeterministic effects of the outside world (the remote HTTP server,
  I/O errors raised by `aiofiles.open`/`read`/`write`, `shutil.rmtree`
  and `os.makedirs`) are supplied by an `Env` of oracles, so theorems
  quantify over every possible behaviour of the environment.
* Python exceptions that can escape these methods are modelled with
  `Except`: `CannotConnect` (raised on `aiohttp.ClientError`) and the
  `AttributeError` obtained by touching `self.cache_assets` or
  `self.asset_cache_path` before `initialize_asset_cache` has assigned
  them.  Exceptions that the source catches and logs are absorbed in the
  embedding exactly where the `except` blocks sit in the source.
* Python truthiness of `bytes | None` (`if asset_bytes:`) is explicit:
  `None` and the empty byte string are falsy.
-/

set_option autoImplicit false

namespace Immich

/-- Byte contents of an asset, one `Nat` per byte. -/
abbrev Bytes := List Nat

/-- `_ALLOWED_MIME_TYPES` from hub.py line 24. -/
def _ALLOWED_MIME_TYPES : List String := ["image/png", "image/jpeg"]

/-- Python truthiness of a `bytes | None` value: `None` and `b""` are falsy. -/
def truthy : Option Bytes → Bool
  | none => false
  | some b => !b.isEmpty

/-- Exceptions that can escape the modelled methods. -/
inductive HubError where
  /-- `AttributeError`: an instance attribute that has never been assigned
  (here `cache_assets` / `asset_cache_path`) is read. -/
  | attributeError
  /-- `CannotConnect`, raised from `aiohttp.ClientError`. -/
  | cannotConnect
deriving DecidableEq, Repr

/-- An HTTP response delivered by the remote Immich server. -/
structure Response where
  status : Nat
  content_type : String
  body : Bytes
deriving DecidableEq, Repr

/-- Outcome of one `session.get` on the thumbnail endpoint: either a
response or a transport-level `aiohttp.ClientError`. -/
inductive FetchOutcome where
  | resp (r : Response)
  | clientError
deriving DecidableEq, Repr

/-- Oracles describing the environment's behaviour: what the remote
returns for each (asset id, picture type) request, and which local I/O
operations raise. -/
structure Env where
  /-- Outcome of `GET /api/assets/{asset_id}/thumbnail?size={picture_type}`. -/
  remote : String → String → FetchOutcome
  /-- Whether `aiofiles.open(filename, "rb")` / `read` raises for this asset id. -/
  readFails : String → Bool
  /-- Whether `aiofiles.open(filename, "wb")` / `write` raises for this asset id
  (beyond the failure forced by a missing cache directory). -/
  writeFails : String → Bool
  /-- Whether `shutil.rmtree(self.asset_cache_path)` raises. -/
  rmtreeFails : Bool
  /-- Whether `os.makedirs(self.asset_cache_path, exist_ok=True)` raises. -/
  makedirsFails : Bool

/-- The filesystem state relevant to the hub: the cache directory and the
files inside it, keyed by asset id. -/
structure Fs where
  dirExists : Bool
  files : List (String × Bytes)
deriving DecidableEq, Repr

/-- `os.path.isfile(os.path.join(asset_cache_path, asset_id))`: a file in a
directory that does not exist is not a file. -/
def Fs.isfile (fs : Fs) (asset_id : String) : Bool :=
  fs.dirExists && (fs.files.lookup asset_id).isSome

/-- Contents visible to a successful read of `directory/asset_id`. -/
def Fs.readFile (fs : Fs) (asset_id : String) : Option Bytes :=
  if fs.dirExists then fs.files.lookup asset_id else none

/-- Effect of a successful `open(filename, "wb")` + `write`: the file now
holds exactly the written bytes. -/
def Fs.writeFile (fs : Fs) (asset_id : String) (b : Bytes) : Fs :=
  { fs with files := (asset_id, b) :: fs.files.filter (fun p => !(p.1 == asset_id)) }

/-- State of an `ImmichHub` instance.  `cache_mode_option` and
`picture_type` are the values `config_entry.options.get` resolves
(option or default); `attrsSet` records whether `initialize_asset_cache`
has run and assigned the instance attributes `cache_assets` and
`asset_cache_path`, whose read otherwise raises `AttributeError`. -/
structure Hub where
  cache_mode_option : Bool
  picture_type : String
  attrsSet : Bool
  cache_assets : Bool
deriving DecidableEq, Repr

instance instDecEqExcept {ε α : Type} [DecidableEq ε] [DecidableEq α] :
    DecidableEq (Except ε α) := fun x y =>
  match x, y with
  | .error e, .error f => decidable_of_iff (e = f) (by simp)
  | .error _, .ok _ => isFalse (by simp)
  | .ok _, .error _ => isFalse (by simp)
  | .ok a, .ok b => decidable_of_iff (a = b) (by simp)

/-- Result of one method call: its return value or escaped exception, the
filesystem afterwards, and how many thumbnail requests reached the remote. -/
structure StepResult (α : Type) where
  res : Except HubError α
  fs : Fs
  fetches : Nat
deriving Repr, DecidableEq

/-- hub.py lines 133-142, `load_cached_asset`: join the path (reading
`self.asset_cache_path`, which raises `AttributeError` when unset), return
the file contents when `os.path.isfile` holds and the read succeeds; a
read error is caught and logged and the method falls through to
`return None`.  No filesystem mutation, no network. -/
def load_cached_asset (env : Env) (hub : Hub) (fs : Fs) (asset_id : String) :
    Except HubError (Option Bytes) :=
  if !hub.attrsSet then .error .attributeError
  else if fs.isfile asset_id then
    if env.readFails asset_id then .ok none
    else .ok (fs.readFile asset_id)
  else .ok none

/-- hub.py lines 118-128: the body of `download_asset`'s `session.get`
block once a response has arrived.  Non-200 status returns `None`; a
content type outside `_ALLOWED_MIME_TYPES` returns `None`; otherwise the
response body is returned. -/
def handle_thumbnail_response (r : Response) : Option Bytes :=
  if r.status ≠ 200 then none
  else if !(_ALLOWED_MIME_TYPES.contains r.content_type) then none
  else some r.body

/-- hub.py lines 111-131: the remote half of `download_asset`: one
`session.get` of the thumbnail endpoint; an `aiohttp.ClientError` is
caught and re-raised as `CannotConnect`. -/
def fetch_thumbnail (env : Env) (asset_id : String) (picture_type : String) :
    Except HubError (Option Bytes) :=
  match env.remote asset_id picture_type with
  | .clientError => .error .cannotConnect
  | .resp r => .ok (handle_thumbnail_response r)

/-- hub.py lines 102-131, `download_asset`: consult `load_cached_asset`;
if the result is truthy return it (no network call); otherwise issue
exactly one remote thumbnail request and return its result.  The method
never writes to the filesystem. -/
def download_asset (env : Env) (hub : Hub) (fs : Fs) (asset_id : String) :
    StepResult (Option Bytes) :=
  match load_cached_asset env hub fs asset_id with
  | .error e => ⟨.error e, fs, 0⟩
  | .ok asset_bytes =>
    if truthy asset_bytes then ⟨.ok asset_bytes, fs, 0⟩
    else ⟨fetch_thumbnail env asset_id hub.picture_type, fs, 1⟩

/-- hub.py lines 148-158, the `for` loop of `cache_album_assets`: for each
id in order, skip it when `os.path.isfile` already holds; otherwise call
`download_asset` (whose `CannotConnect` or `AttributeError` is NOT caught
here and escapes, ending the loop); when the result is truthy, attempt the
write, whose failure (including a missing cache directory) is caught and
logged; then continue with the next id. -/
def warm_loop (env : Env) (hub : Hub) : Fs → List String → Nat → StepResult Unit
  | fs, [], n => ⟨.ok (), fs, n⟩
  | fs, asset_id :: rest, n =>
    if fs.isfile asset_id then warm_loop env hub fs rest n
    else
      let d := download_asset env hub fs asset_id
      match d.res with
      | .error e => ⟨.error e, d.fs, n + d.fetches⟩
      | .ok none => warm_loop env hub d.fs rest (n + d.fetches)
      | .ok (some asset_bytes) =>
        if asset_bytes.isEmpty then warm_loop env hub d.fs rest (n + d.fetches)
        else if d.fs.dirExists && !(env.writeFails asset_id) then
          warm_loop env hub (d.fs.writeFile asset_id asset_bytes) rest (n + d.fetches)
        else warm_loop env hub d.fs rest (n + d.fetches)

/-- hub.py lines 144-158, `cache_album_assets`: reading
`self.cache_assets` raises `AttributeError` when unset; when caching is
disabled the whole body is skipped; otherwise run the warming loop. -/
def cache_album_assets (env : Env) (hub : Hub) (fs : Fs) (album_assets : List String) :
    StepResult Unit :=
  if !hub.attrsSet then ⟨.error .attributeError, fs, 0⟩
  else if hub.cache_assets then warm_loop env hub fs album_assets 0
  else ⟨.ok (), fs, 0⟩

/-- hub.py lines 160-176, `initialize_asset_cache`: assign
`self.cache_assets` from configuration and `self.asset_cache_path`;
if the cache directory exists, `shutil.rmtree` it (failure caught and
logged); if caching is enabled, `os.makedirs` the directory (failure
caught and logged).  Always returns, never raises. -/
def initialize_asset_cache (env : Env) (hub : Hub) (fs : Fs) : Hub × Fs :=
  let hub' : Hub := { hub with attrsSet := true, cache_assets := hub.cache_mode_option }
  let fs1 : Fs :=
    if fs.dirExists then
      if env.rmtreeFails then fs else ⟨false, []⟩
    else fs
  let fs2 : Fs :=
    if hub'.cache_assets then
      if env.makedirsFails then fs1 else { fs1 with dirExists := true }
    else fs1
  (hub', fs2)

/-! ### Helper lemmas about the filesystem model -/

theorem lookup_filter_ne (l : List (String × Bytes)) (a c : String) (h : c ≠ a) :
    (l.filter (fun p => !(p.1 == a))).lookup c = l.lookup c := by
  induction l with
  | nil => rfl
  | cons hd tl ih =>
    by_cases hk : hd.1 = a
    · have hca : (c == a) = false := by simp [h]
      simp [List.filter_cons, hk, List.lookup, hca, ih]
    · by_cases hck : c = hd.1
      · simp [List.filter_cons, hk, List.lookup, hck]
      · simp [List.filter_cons, hk, List.lookup, hck, ih]

theorem Fs.dirExists_writeFile (fs : Fs) (a : String) (b : Bytes) :
    (fs.writeFile a b).dirExists = fs.dirExists := rfl

theorem Fs.lookup_writeFile_self (fs : Fs) (a : String) (b : Bytes) :
    (fs.writeFile a b).files.lookup a = some b := by
  simp [Fs.writeFile, List.lookup]

theorem Fs.lookup_writeFile_ne (fs : Fs) (a c : String) (b : Bytes) (h : c ≠ a) :
    (fs.writeFile a b).files.lookup c = fs.files.lookup c := by
  have hc : (c == a) = false := by simp [h]
  simp [Fs.writeFile, List.lookup, hc]
  exact lookup_filter_ne fs.files a c h

theorem Fs.isfile_writeFile_self (fs : Fs) (a : String) (b : Bytes) :
    (fs.writeFile a b).isfile a = fs.dirExists := by
  simp [Fs.isfile, Fs.dirExists_writeFile, Fs.lookup_writeFile_self]

theorem Fs.isfile_writeFile_ne (fs : Fs) (a c : String) (b : Bytes) (h : c ≠ a) :
    (fs.writeFile a b).isfile c = fs.isfile c := by
  simp [Fs.isfile, Fs.dirExists_writeFile, Fs.lookup_writeFile_ne fs a c b h]

/-! ### Helper lemmas about the hub's operations -/

/-- With the attributes assigned and the file absent (or the directory
missing), `download_asset` takes the remote path: one fetch, filesystem
untouched, result exactly the remote outcome. -/
theorem download_asset_miss (env : Env) (hub : Hub) (fs : Fs) (asset_id : String)
    (hattrs : hub.attrsSet = true) (hmiss : fs.isfile asset_id = false) :
    download_asset env hub fs asset_id =
      ⟨fetch_thumbnail env asset_id hub.picture_type, fs, 1⟩ := by
  simp [download_asset, load_cached_asset, hattrs, hmiss, truthy]

/-- The warming loop skips an id whose cache file already exists. -/
theorem warm_loop_skip (env : Env) (hub : Hub) (fs : Fs) (asset_id : String)
    (rest : List String) (n : Nat) (h : fs.isfile asset_id = true) :
    warm_loop env hub fs (asset_id :: rest) n = warm_loop env hub fs rest n := by
  simp [warm_loop, h]

/-- On a batch whose every id is already cached the warming loop is the
identity and issues no fetches. -/
theorem warm_loop_all_cached (env : Env) (hub : Hub) (fs : Fs) (ids : List String) (n : Nat)
    (h : ∀ asset_id ∈ ids, fs.isfile asset_id = true) :
    warm_loop env hub fs ids n = ⟨.ok (), fs, n⟩ := by
  induction ids with
  | nil => rfl
  | cons a rest ih =>
    rw [warm_loop_skip env hub fs a rest n (h a (List.mem_cons_self a rest))]
    exact ih fun asset_id hm => h asset_id (List.mem_cons_of_mem a hm)

/-- One warming step that fetches nonempty bytes and writes them. -/
theorem warm_loop_write (env : Env) (hub : Hub) (fs : Fs) (asset_id : String)
    (rest : List String) (n : Nat) (b : Bytes)
    (hfile : fs.isfile asset_id = false)
    (hd : download_asset env hub fs asset_id = ⟨.ok (some b), fs, 1⟩)
    (hb : b.isEmpty = false) (hdir : fs.dirExists = true)
    (hw : env.writeFails asset_id = false) :
    warm_loop env hub fs (asset_id :: rest) n =
      warm_loop env hub (fs.writeFile asset_id b) rest (n + 1) := by
  simp [warm_loop, hfile, hd, hb, hdir, hw]

/-- One warming step whose download result is falsy (None or empty bytes):
nothing is written and the loop continues. -/
theorem warm_loop_no_write (env : Env) (hub : Hub) (fs : Fs) (asset_id : String)
    (rest : List String) (n : Nat) (ob : Option Bytes)
    (hfile : fs.isfile asset_id = false)
    (hd : download_asset env hub fs asset_id = ⟨.ok ob, fs, 1⟩)
    (ht : truthy ob = false) :
    warm_loop env hub fs (asset_id :: rest) n = warm_loop env hub fs rest (n + 1) := by
  cases ob with
  | none => simp [warm_loop, hfile, hd]
  | some b =>
    have hb : b.isEmpty = true := by simpa [truthy] using ht
    simp [warm_loop, hfile, hd, hb]

/-- One warming step whose download raises: the exception escapes the loop
with the filesystem as it stood. -/
theorem warm_loop_error (env : Env) (hub : Hub) (fs : Fs) (asset_id : String)
    (rest : List String) (n : Nat) (e : HubError)
    (hfile : fs.isfile asset_id = false)
    (hd : download_asset env hub fs asset_id = ⟨.error e, fs, 1⟩) :
    warm_loop env hub fs (asset_id :: rest) n = ⟨.error e, fs, n + 1⟩ := by
  simp [warm_loop, hfile, hd]

/-! ### Concrete fixtures used by witnesses and counterexamples -/

/-- A remote that always answers 200 image/png with body `[7]`; no local
I/O failures. -/
def envOkPng : Env :=
  ⟨fun _ _ => .resp ⟨200, "image/png", [7]⟩, fun _ => false, fun _ => false, false, false⟩

/-- A remote that always answers 200 with content type application/pdf. -/
def envPdf : Env :=
  ⟨fun _ _ => .resp ⟨200, "application/pdf", [7]⟩, fun _ => false, fun _ => false, false, false⟩

/-- An initialized hub (attributes assigned) with caching enabled. -/
def hubOn : Hub := ⟨true, "thumbnail", true, true⟩

/-- A hub on which `initialize_asset_cache` has not run yet. -/
def hubPre : Hub := ⟨true, "thumbnail", false, false⟩

/-- A hub whose configuration disables caching, before initialization. -/
def hubCfgOff : Hub := ⟨false, "thumbnail", false, false⟩

/-- An existing, empty cache directory. -/
def fsEmpty : Fs := ⟨true, []⟩

/-! ### Claims -/

/-- C10: `load_cached_asset`, `download_asset` and `cache_album_assets`
read the instance attributes `asset_cache_path` / `cache_assets`, which
only `initialize_asset_cache` assigns; called on a hub where it has not
run, each of them raises `AttributeError` instead of degrading to a miss
or a no-op. -/
theorem c10_uninitialized_attribute_error (env : Env) (hub : Hub) (fs : Fs)
    (asset_id : String) (ids : List String) (h : hub.attrsSet = false) :
    load_cached_asset env hub fs asset_id = .error .attributeError ∧
    download_asset env hub fs asset_id = ⟨.error .attributeError, fs, 0⟩ ∧
    cache_album_assets env hub fs ids = ⟨.error .attributeError, fs, 0⟩ := by
  refine ⟨?_, ?_, ?_⟩ <;>
    simp [load_cached_asset, download_asset, cache_album_assets, h]

/-- Witness for C10 at a concrete uninitialized hub. -/
theorem c10_witness :
    hubPre.attrsSet = false ∧
    (load_cached_asset envOkPng hubPre fsEmpty "A" = .error .attributeError ∧
     download_asset envOkPng hubPre fsEmpty "A" = ⟨.error .attributeError, fsEmpty, 0⟩ ∧
     cache_album_assets envOkPng hubPre fsEmpty ["A"] = ⟨.error .attributeError, fsEmpty, 0⟩) :=
  ⟨rfl, c10_uninitialized_attribute_error envOkPng hubPre fsEmpty "A" ["A"] rfl⟩

/-- C8: `initialize_asset_cache` always completes without raising,
assigning the attributes from configuration; and whenever the cache
directory exists at initialization and `shutil.rmtree` succeeds, the
directory's contents are cleared before any new entry can be written in
the current session. -/
theorem c8_cold_start_invalidation (env : Env) (hub : Hub) (fs : Fs) :
    (initialize_asset_cache env hub fs).1 =
      { hub with attrsSet := true, cache_assets := hub.cache_mode_option } ∧
    (fs.dirExists = true → env.rmtreeFails = false →
      ((initialize_asset_cache env hub fs).2).files = []) := by
  constructor
  · rfl
  · intro hd hr
    simp [initialize_asset_cache, hd, hr]
    split_ifs <;> rfl

/-- Witness for C8 at a concrete nonempty prior-session cache. -/
theorem c8_witness :
    (⟨true, [("A", [1])]⟩ : Fs).dirExists = true ∧
    envOkPng.rmtreeFails = false ∧
    ((initialize_asset_cache envOkPng hubCfgOff ⟨true, [("A", [1])]⟩).2).files = [] :=
  ⟨rfl, rfl, (c8_cold_start_invalidation envOkPng hubCfgOff ⟨true, [("A", [1])]⟩).2 rfl rfl⟩

/-- C4: once an HTTP response arrives, `fetch_thumbnail` returns bytes
exactly for status 200 with content type in `_ALLOWED_MIME_TYPES`
(returning the body unmodified); any other status or content type yields
`None` rather than bytes or an exception. -/
theorem c4_content_type_gate (env : Env) (asset_id picture_type : String) (r : Response)
    (hresp : env.remote asset_id picture_type = .resp r) :
    (r.status = 200 → r.content_type ∈ _ALLOWED_MIME_TYPES →
      fetch_thumbnail env asset_id picture_type = .ok (some r.body)) ∧
    (r.status ≠ 200 ∨ r.content_type ∉ _ALLOWED_MIME_TYPES →
      fetch_thumbnail env asset_id picture_type = .ok none) := by
  constructor
  · intro hs hm
    have hm' : r.content_type = "image/png" ∨ r.content_type = "image/jpeg" := by
      simpa [_ALLOWED_MIME_TYPES] using hm
    rcases hm' with h | h <;>
      simp [fetch_thumbnail, hresp, handle_thumbnail_response, hs, h, _ALLOWED_MIME_TYPES]
  · intro hn
    rcases hn with hs | hm
    · simp [fetch_thumbnail, hresp, handle_thumbnail_response, hs]
    · have hm' : ¬(r.content_type = "image/png" ∨ r.content_type = "image/jpeg") := by
        simpa [_ALLOWED_MIME_TYPES] using hm
      push_neg at hm'
      simp [fetch_thumbnail, hresp, handle_thumbnail_response, _ALLOWED_MIME_TYPES,
        hm'.1, hm'.2]

/-- Witness for C4: a 200 response with content type application/pdf
yields None. -/
theorem c4_witness :
    envPdf.remote "A" "thumbnail" = .resp ⟨200, "application/pdf", [7]⟩ ∧
    ((200 : Nat) ≠ 200 ∨ "application/pdf" ∉ _ALLOWED_MIME_TYPES) ∧
    fetch_thumbnail envPdf "A" "thumbnail" = .ok none :=
  ⟨rfl, by decide,
   (c4_content_type_gate envPdf "A" "thumbnail" ⟨200, "application/pdf", [7]⟩ rfl).2
     (by decide)⟩

/-- C5: with the hub initialized, caching enabled and `directory/asset_id`
absent, `download_asset` issues exactly one remote fetch, returns the
remote result unmodified, and leaves the filesystem unchanged. -/
theorem c5_miss_then_fetch (env : Env) (hub : Hub) (fs : Fs) (asset_id : String)
    (hattrs : hub.attrsSet = true) (_hcache : hub.cache_assets = true)
    (hmiss : fs.isfile asset_id = false) :
    download_asset env hub fs asset_id =
      ⟨fetch_thumbnail env asset_id hub.picture_type, fs, 1⟩ :=
  download_asset_miss env hub fs asset_id hattrs hmiss

/-- Witness for C5 at a concrete empty cache. -/
theorem c5_witness :
    hubOn.attrsSet = true ∧ hubOn.cache_assets = true ∧ fsEmpty.isfile "A" = false ∧
    download_asset envOkPng hubOn fsEmpty "A" =
      ⟨fetch_thumbnail envOkPng "A" hubOn.picture_type, fsEmpty, 1⟩ :=
  ⟨rfl, rfl, by decide, c5_miss_then_fetch envOkPng hubOn fsEmpty "A" rfl rfl (by decide)⟩

/-- A remote that is unreachable (every request raises a ClientError);
local reads also fail. -/
def envConnFail : Env :=
  ⟨fun _ _ => .clientError, fun _ => true, fun _ => false, false, false⟩

/-- A remote that always answers 200 image/png with an empty body. -/
def envEmptyPng : Env :=
  ⟨fun _ _ => .resp ⟨200, "image/png", []⟩, fun _ => false, fun _ => false, false, false⟩

/-- C3: on an initialized hub only ConnectionFailure crosses the
`download_asset` boundary: `load_cached_asset` never raises and a read
failure is absorbed into a miss; any exception escaping `download_asset`
is CannotConnect; and a transport failure on the fetch path raises
CannotConnect rather than returning None. -/
theorem c3_propagation_policy (env : Env) (hub : Hub) (fs : Fs) (asset_id : String)
    (hattrs : hub.attrsSet = true) :
    (∃ ob, load_cached_asset env hub fs asset_id = .ok ob) ∧
    (fs.isfile asset_id = true → env.readFails asset_id = true →
      load_cached_asset env hub fs asset_id = .ok none) ∧
    (∀ e, (download_asset env hub fs asset_id).res = .error e → e = .cannotConnect) ∧
    (fs.isfile asset_id = false → env.remote asset_id hub.picture_type = .clientError →
      (download_asset env hub fs asset_id).res = .error .cannotConnect) := by
  have hok : ∃ ob, load_cached_asset env hub fs asset_id = .ok ob := by
    by_cases h1 : fs.isfile asset_id = true
    · by_cases h2 : env.readFails asset_id = true
      · exact ⟨none, by simp [load_cached_asset, hattrs, h1, h2]⟩
      · exact ⟨fs.readFile asset_id, by simp [load_cached_asset, hattrs, h1, h2]⟩
    · exact ⟨none, by simp [load_cached_asset, hattrs, h1]⟩
  refine ⟨hok, ?_, ?_, ?_⟩
  · intro hf hr
    simp [load_cached_asset, hattrs, hf, hr]
  · intro e he
    obtain ⟨ob, hob⟩ := hok
    simp only [download_asset, hob] at he
    by_cases ht : truthy ob
    · simp [ht] at he
    · rw [if_neg (by simp [ht])] at he
      cases hr : env.remote asset_id hub.picture_type with
      | clientError =>
        simp [fetch_thumbnail, hr] at he
        exact he.symm
      | resp r => simp [fetch_thumbnail, hr] at he
  · intro hmiss hremote
    rw [download_asset_miss env hub fs asset_id hattrs hmiss]
    simp [fetch_thumbnail, hremote]

/-- Witness for C3 with an unreachable remote and an empty cache. -/
theorem c3_witness :
    hubOn.attrsSet = true ∧
    fsEmpty.isfile "A" = false ∧
    envConnFail.remote "A" hubOn.picture_type = .clientError ∧
    (download_asset envConnFail hubOn fsEmpty "A").res = .error .cannotConnect :=
  ⟨rfl, by decide, rfl,
   (c3_propagation_policy envConnFail hubOn fsEmpty "A" rfl).2.2.2 (by decide) rfl⟩

/-- Counterexample to C2 as stated: `directory/A` exists as a regular
file with content `b""`, yet `download_asset` does not return that
content without invoking the remote — the empty bytes are falsy, so it
fetches and returns the remote's bytes instead. -/
theorem c2_counterexample :
    Fs.readFile ⟨true, [("A", [])]⟩ "A" = some [] ∧
    download_asset envOkPng hubOn ⟨true, [("A", [])]⟩ "A" =
      ⟨.ok (some [7]), ⟨true, [("A", [])]⟩, 1⟩ := by decide

/-- C2 amended: for every NONEMPTY cached content X, when the read
succeeds, `download_asset` returns X from the cache with no remote call
(empty cached content is instead treated as a miss, cf. the
counterexample). -/
theorem c2_cache_hit_precedence (env : Env) (hub : Hub) (fs : Fs) (asset_id : String)
    (X : Bytes) (hattrs : hub.attrsSet = true) (hread : env.readFails asset_id = false)
    (hfile : fs.readFile asset_id = some X) (hX : X ≠ []) :
    download_asset env hub fs asset_id = ⟨.ok (some X), fs, 0⟩ := by
  have hdir : fs.dirExists = true := by
    by_contra hd
    simp [Fs.readFile, hd] at hfile
  have hisfile : fs.isfile asset_id = true := by
    have hl : fs.files.lookup asset_id = some X := by
      simpa [Fs.readFile, hdir] using hfile
    simp [Fs.isfile, hdir, hl]
  have hXe : X.isEmpty = false := by
    cases X with
    | nil => exact absurd rfl hX
    | cons h t => rfl
  simp [download_asset, load_cached_asset, hattrs, hisfile, hread, hfile, truthy, hXe]

/-- Witness for the amended C2 at a concrete nonempty cached file. -/
theorem c2_witness :
    hubOn.attrsSet = true ∧ envOkPng.readFails "A" = false ∧
    Fs.readFile ⟨true, [("A", [9])]⟩ "A" = some [9] ∧ ([9] : Bytes) ≠ [] ∧
    download_asset envOkPng hubOn ⟨true, [("A", [9])]⟩ "A" =
      ⟨.ok (some [9]), ⟨true, [("A", [9])]⟩, 0⟩ :=
  ⟨rfl, rfl, by decide, by decide,
   c2_cache_hit_precedence envOkPng hubOn ⟨true, [("A", [9])]⟩ "A" [9] rfl rfl
     (by decide) (by decide)⟩

/-- C7: with caching disabled in configuration (and rmtree succeeding),
`initialize_asset_cache` leaves no cache directory, `cache_album_assets`
is a no-op for every input, and every `download_asset` call reaches the
remote because every lookup misses. -/
theorem c7_disabled_cache (env : Env) (hub : Hub) (fs : Fs)
    (hmode : hub.cache_mode_option = false) (hrm : env.rmtreeFails = false) :
    ((initialize_asset_cache env hub fs).2).dirExists = false ∧
    (∀ ids, cache_album_assets env (initialize_asset_cache env hub fs).1
        (initialize_asset_cache env hub fs).2 ids =
      ⟨.ok (), (initialize_asset_cache env hub fs).2, 0⟩) ∧
    (∀ asset_id, download_asset env (initialize_asset_cache env hub fs).1
        (initialize_asset_cache env hub fs).2 asset_id =
      ⟨fetch_thumbnail env asset_id hub.picture_type,
        (initialize_asset_cache env hub fs).2, 1⟩) := by
  have hdir : ((initialize_asset_cache env hub fs).2).dirExists = false := by
    simp only [initialize_asset_cache, hmode, hrm]
    by_cases hd : fs.dirExists <;> simp [hd]
  have hattrs : ((initialize_asset_cache env hub fs).1).attrsSet = true := rfl
  have hca : ((initialize_asset_cache env hub fs).1).cache_assets = false := by
    simp [initialize_asset_cache, hmode]
  refine ⟨hdir, ?_, ?_⟩
  · intro ids
    simp [cache_album_assets, hattrs, hca]
  · intro asset_id
    have hmiss : ((initialize_asset_cache env hub fs).2).isfile asset_id = false := by
      simp [Fs.isfile, hdir]
    have hpt : ((initialize_asset_cache env hub fs).1).picture_type = hub.picture_type := rfl
    rw [download_asset_miss env (initialize_asset_cache env hub fs).1
      (initialize_asset_cache env hub fs).2 asset_id hattrs hmiss, hpt]

/-- Witness for C7 with a concrete disabled configuration. -/
theorem c7_witness :
    hubCfgOff.cache_mode_option = false ∧ envOkPng.rmtreeFails = false ∧
    ((initialize_asset_cache envOkPng hubCfgOff fsEmpty).2).dirExists = false ∧
    cache_album_assets envOkPng (initialize_asset_cache envOkPng hubCfgOff fsEmpty).1
        (initialize_asset_cache envOkPng hubCfgOff fsEmpty).2 ["A"] =
      ⟨.ok (), (initialize_asset_cache envOkPng hubCfgOff fsEmpty).2, 0⟩ ∧
    download_asset envOkPng (initialize_asset_cache envOkPng hubCfgOff fsEmpty).1
        (initialize_asset_cache envOkPng hubCfgOff fsEmpty).2 "A" =
      ⟨fetch_thumbnail envOkPng "A" hubCfgOff.picture_type,
        (initialize_asset_cache envOkPng hubCfgOff fsEmpty).2, 1⟩ :=
  ⟨rfl, rfl, (c7_disabled_cache envOkPng hubCfgOff fsEmpty rfl rfl).1,
   (c7_disabled_cache envOkPng hubCfgOff fsEmpty rfl rfl).2.1 ["A"],
   (c7_disabled_cache envOkPng hubCfgOff fsEmpty rfl rfl).2.2 "A"⟩

/-- C9: empty bytes are treated as absent at both ends of the cache: a
cached zero-byte file does not satisfy the truthiness test in
`download_asset`, which still fetches from the remote; and the warming
loop writes no cache file when the fetch returns empty bytes. -/
theorem c9_empty_bytes_treated_as_absent (env : Env) (hub : Hub) (fs : Fs) (asset_id : String)
    (hattrs : hub.attrsSet = true) :
    (fs.readFile asset_id = some [] →
      download_asset env hub fs asset_id =
        ⟨fetch_thumbnail env asset_id hub.picture_type, fs, 1⟩) ∧
    (hub.cache_assets = true → fs.isfile asset_id = false →
      fetch_thumbnail env asset_id hub.picture_type = .ok (some []) →
      cache_album_assets env hub fs [asset_id] = ⟨.ok (), fs, 1⟩) := by
  constructor
  · intro hfile
    have hdir : fs.dirExists = true := by
      by_contra hd
      simp [Fs.readFile, hd] at hfile
    have hisfile : fs.isfile asset_id = true := by
      have hl : fs.files.lookup asset_id = some [] := by
        simpa [Fs.readFile, hdir] using hfile
      simp [Fs.isfile, hdir, hl]
    by_cases hr : env.readFails asset_id
    · simp [download_asset, load_cached_asset, hattrs, hisfile, hr, truthy]
    · simp [download_asset, load_cached_asset, hattrs, hisfile, hr, hfile, truthy]
  · intro hcache hmiss hfetch
    have hd : download_asset env hub fs asset_id = ⟨.ok (some []), fs, 1⟩ := by
      rw [download_asset_miss env hub fs asset_id hattrs hmiss, hfetch]
    simp only [cache_album_assets, hattrs, hcache, Bool.not_true, Bool.false_eq_true,
      if_false, if_true]
    rw [warm_loop_no_write env hub fs asset_id [] 0 (some []) hmiss hd rfl]
    rfl

/-- Witness for C9 with a concrete empty cached file and an empty remote
body. -/
theorem c9_witness :
    hubOn.attrsSet = true ∧
    (Fs.readFile ⟨true, [("A", [])]⟩ "A" = some [] ∧
     download_asset envEmptyPng hubOn ⟨true, [("A", [])]⟩ "A" =
       ⟨fetch_thumbnail envEmptyPng "A" hubOn.picture_type, ⟨true, [("A", [])]⟩, 1⟩) ∧
    (hubOn.cache_assets = true ∧ fsEmpty.isfile "A" = false ∧
     fetch_thumbnail envEmptyPng "A" hubOn.picture_type = .ok (some []) ∧
     cache_album_assets envEmptyPng hubOn fsEmpty ["A"] = ⟨.ok (), fsEmpty, 1⟩) :=
  ⟨rfl,
   ⟨by decide,
    (c9_empty_bytes_treated_as_absent envEmptyPng hubOn ⟨true, [("A", [])]⟩ "A" rfl).1
      (by decide)⟩,
   rfl, by decide, by decide,
   (c9_empty_bytes_treated_as_absent envEmptyPng hubOn fsEmpty "A" rfl).2 rfl
     (by decide) (by decide)⟩

/-- A remote serving two distinct assets, both 200 image/png. -/
def envTwo : Env :=
  ⟨fun aid _ => if aid = "A" then .resp ⟨200, "image/png", [1]⟩
    else .resp ⟨200, "image/png", [2]⟩,
   fun _ => false, fun _ => false, false, false⟩

/-- C6: warming is idempotent: a first `cache_album_assets [a, b]` on an
empty cache writes the two files with two fetches, and running it again
leaves exactly the same files and issues zero fetches, each id being
skipped because its file already exists. -/
theorem c6_warm_idempotent (env : Env) (hub : Hub) (fs : Fs) (a b : String) (x y : Bytes)
    (hattrs : hub.attrsSet = true) (hcache : hub.cache_assets = true)
    (hdir : fs.dirExists = true) (hab : a ≠ b)
    (ha : fs.files.lookup a = none) (hb : fs.files.lookup b = none)
    (hra : env.remote a hub.picture_type = .resp ⟨200, "image/png", x⟩) (hx : x ≠ [])
    (hrb : env.remote b hub.picture_type = .resp ⟨200, "image/png", y⟩) (hy : y ≠ [])
    (hwa : env.writeFails a = false) (hwb : env.writeFails b = false) :
    cache_album_assets env hub fs [a, b] =
      ⟨.ok (), (fs.writeFile a x).writeFile b y, 2⟩ ∧
    cache_album_assets env hub ((fs.writeFile a x).writeFile b y) [a, b] =
      ⟨.ok (), (fs.writeFile a x).writeFile b y, 0⟩ := by
  have hxe : x.isEmpty = false := by
    cases x with
    | nil => exact absurd rfl hx
    | cons h t => rfl
  have hye : y.isEmpty = false := by
    cases y with
    | nil => exact absurd rfl hy
    | cons h t => rfl
  have hfa : fs.isfile a = false := by simp [Fs.isfile, ha]
  have hta : fetch_thumbnail env a hub.picture_type = .ok (some x) := by
    simp [fetch_thumbnail, hra, handle_thumbnail_response, _ALLOWED_MIME_TYPES]
  have hda : download_asset env hub fs a = ⟨.ok (some x), fs, 1⟩ := by
    rw [download_asset_miss env hub fs a hattrs hfa, hta]
  set fs1 := fs.writeFile a x with hfs1
  have hdir1 : fs1.dirExists = true := by rw [Fs.dirExists_writeFile]; exact hdir
  have hfb : fs1.isfile b = false := by
    simp [Fs.isfile, Fs.dirExists_writeFile,
      Fs.lookup_writeFile_ne fs a b x (Ne.symm hab), hb]
  have htb : fetch_thumbnail env b hub.picture_type = .ok (some y) := by
    simp [fetch_thumbnail, hrb, handle_thumbnail_response, _ALLOWED_MIME_TYPES]
  have hdb : download_asset env hub fs1 b = ⟨.ok (some y), fs1, 1⟩ := by
    rw [download_asset_miss env hub fs1 b hattrs hfb, htb]
  set fs2 := fs1.writeFile b y with hfs2
  have hdir2 : fs2.dirExists = true := by rw [Fs.dirExists_writeFile]; exact hdir1
  have hwarm1 : warm_loop env hub fs [a, b] 0 = ⟨.ok (), fs2, 2⟩ := by
    rw [warm_loop_write env hub fs a [b] 0 x hfa hda hxe hdir hwa,
        warm_loop_write env hub fs1 b [] (0 + 1) y hfb hdb hye hdir1 hwb]
    rfl
  have hfile2 : ∀ asset_id ∈ [a, b], fs2.isfile asset_id = true := by
    intro asset_id hm
    have hm' : asset_id = a ∨ asset_id = b := by simpa using hm
    rcases hm' with h | h
    · subst h
      rw [hfs2, Fs.isfile_writeFile_ne fs1 b asset_id y hab, hfs1,
        Fs.isfile_writeFile_self fs asset_id x]
      exact hdir
    · subst h
      rw [hfs2, Fs.isfile_writeFile_self fs1 asset_id y]
      exact hdir1
  have hwarm2 : warm_loop env hub fs2 [a, b] 0 = ⟨.ok (), fs2, 0⟩ :=
    warm_loop_all_cached env hub fs2 [a, b] 0 hfile2
  constructor <;> simp [cache_album_assets, hattrs, hcache, hwarm1, hwarm2]

/-- Witness for C6 at two concrete assets over an empty cache. -/
theorem c6_witness :
    hubOn.attrsSet = true ∧ hubOn.cache_assets = true ∧ fsEmpty.dirExists = true ∧
    "A" ≠ "B" ∧ fsEmpty.files.lookup "A" = none ∧ fsEmpty.files.lookup "B" = none ∧
    envTwo.remote "A" hubOn.picture_type = .resp ⟨200, "image/png", [1]⟩ ∧
    ([1] : Bytes) ≠ [] ∧
    envTwo.remote "B" hubOn.picture_type = .resp ⟨200, "image/png", [2]⟩ ∧
    ([2] : Bytes) ≠ [] ∧
    envTwo.writeFails "A" = false ∧ envTwo.writeFails "B" = false ∧
    (cache_album_assets envTwo hubOn fsEmpty ["A", "B"] =
       ⟨.ok (), (fsEmpty.writeFile "A" [1]).writeFile "B" [2], 2⟩ ∧
     cache_album_assets envTwo hubOn
         ((fsEmpty.writeFile "A" [1]).writeFile "B" [2]) ["A", "B"] =
       ⟨.ok (), (fsEmpty.writeFile "A" [1]).writeFile "B" [2], 0⟩) :=
  ⟨rfl, rfl, rfl, by decide, rfl, rfl, by decide, by decide, by decide, by decide, rfl, rfl,
   c6_warm_idempotent envTwo hubOn fsEmpty "A" "B" [1] [2] rfl rfl rfl (by decide) rfl rfl
     (by decide) (by decide) (by decide) (by decide) rfl rfl⟩

/-- A remote where fetching "B" raises a ClientError and every other id
succeeds with 200 image/png body [1]. -/
def envBFails : Env :=
  ⟨fun aid _ => if aid = "B" then .clientError else .resp ⟨200, "image/png", [1]⟩,
   fun _ => false, fun _ => false, false, false⟩

/-- Counterexample to C1 as stated: warming [A, B, C] where fetching B
raises ConnectionFailure does NOT keep processing the remaining ids — the
exception escapes `cache_album_assets` (only two fetches are issued), so
C, whose fetch would have returned bytes, never gets a cache file. -/
theorem c1_counterexample :
    envBFails.remote "C" hubOn.picture_type = .resp ⟨200, "image/png", [1]⟩ ∧
    (cache_album_assets envBFails hubOn fsEmpty ["A", "B", "C"]).res =
      .error .cannotConnect ∧
    (cache_album_assets envBFails hubOn fsEmpty ["A", "B", "C"]).fs.files.lookup "C" =
      none ∧
    (cache_album_assets envBFails hubOn fsEmpty ["A", "B", "C"]).fetches = 2 := by
  decide

/-- C1 amended: a ConnectionFailure raised while fetching an id escapes
`cache_album_assets` and aborts the batch: ids before the failing id are
processed normally (a fetch that returned bytes has its cache file), the
failing id gets no file, and ids after it are not processed at all. -/
theorem c1_warm_connection_failure_aborts (env : Env) (hub : Hub) (fs : Fs)
    (a b c : String) (x : Bytes)
    (hattrs : hub.attrsSet = true) (hcache : hub.cache_assets = true)
    (hdir : fs.dirExists = true) (hba : b ≠ a) (hca : c ≠ a)
    (ha : fs.files.lookup a = none) (hb : fs.files.lookup b = none)
    (hc : fs.files.lookup c = none)
    (hra : env.remote a hub.picture_type = .resp ⟨200, "image/png", x⟩) (hx : x ≠ [])
    (hwa : env.writeFails a = false)
    (hrb : env.remote b hub.picture_type = .clientError) :
    cache_album_assets env hub fs [a, b, c] =
      ⟨.error .cannotConnect, fs.writeFile a x, 2⟩ ∧
    (fs.writeFile a x).isfile a = true ∧
    (fs.writeFile a x).isfile b = false ∧
    (fs.writeFile a x).isfile c = false := by
  have hxe : x.isEmpty = false := by
    cases x with
    | nil => exact absurd rfl hx
    | cons h t => rfl
  have hfa : fs.isfile a = false := by simp [Fs.isfile, ha]
  have hta : fetch_thumbnail env a hub.picture_type = .ok (some x) := by
    simp [fetch_thumbnail, hra, handle_thumbnail_response, _ALLOWED_MIME_TYPES]
  have hda : download_asset env hub fs a = ⟨.ok (some x), fs, 1⟩ := by
    rw [download_asset_miss env hub fs a hattrs hfa, hta]
  set fs1 := fs.writeFile a x with hfs1
  have hfb : fs1.isfile b = false := by
    simp [Fs.isfile, Fs.dirExists_writeFile, Fs.lookup_writeFile_ne fs a b x hba, hb]
  have hdb : download_asset env hub fs1 b = ⟨.error .cannotConnect, fs1, 1⟩ := by
    rw [download_asset_miss env hub fs1 b hattrs hfb]
    simp [fetch_thumbnail, hrb]
  have hwarm : warm_loop env hub fs [a, b, c] 0 = ⟨.error .cannotConnect, fs1, 2⟩ := by
    rw [warm_loop_write env hub fs a [b, c] 0 x hfa hda hxe hdir hwa,
        warm_loop_error env hub fs1 b [c] (0 + 1) .cannotConnect hfb hdb]
  refine ⟨by simp [cache_album_assets, hattrs, hcache, hwarm], ?_, ?_, ?_⟩
  · rw [hfs1, Fs.isfile_writeFile_self fs a x]
    exact hdir
  · rw [hfs1, Fs.isfile_writeFile_ne fs a b x hba]
    simp [Fs.isfile, hb]
  · rw [hfs1, Fs.isfile_writeFile_ne fs a c x hca]
    simp [Fs.isfile, hc]

/-- Witness for the amended C1 at the concrete batch [A, B, C]. -/
theorem c1_witness :
    hubOn.attrsSet = true ∧ hubOn.cache_assets = true ∧ fsEmpty.dirExists = true ∧
    "B" ≠ "A" ∧ "C" ≠ "A" ∧
    fsEmpty.files.lookup "A" = none ∧ fsEmpty.files.lookup "B" = none ∧
    fsEmpty.files.lookup "C" = none ∧
    envBFails.remote "A" hubOn.picture_type = .resp ⟨200, "image/png", [1]⟩ ∧
    ([1] : Bytes) ≠ [] ∧ envBFails.writeFails "A" = false ∧
    envBFails.remote "B" hubOn.picture_type = .clientError ∧
    cache_album_assets envBFails hubOn fsEmpty ["A", "B", "C"] =
      ⟨.error .cannotConnect, fsEmpty.writeFile "A" [1], 2⟩ :=
  ⟨rfl, rfl, rfl, by decide, by decide, rfl, rfl, rfl, by decide, by decide, rfl, by decide,
   (c1_warm_connection_failure_aborts envBFails hubOn fsEmpty "A" "B" "C" [1] rfl rfl rfl
     (by decide) (by decide) rfl rfl rfl (by decide) (by decide) rfl (by decide)).1⟩

end Immich
